import Mathlib

/-!
Formal model of the combat-resolution, reward and drop core of the
Ashbee_Realms repository (files `game/drops.py`, `game/engine.py`,
`game/models.py`, `game/effects.py`), as a shallow embedding:

* Python `float` values are modelled as exact rationals (`ℚ`);
* Python `int` values are modelled as `Int` (Python integers are unbounded);
* the random generator is modelled by an oracle: a stream of floats consumed
  by `random.random()` and a stream of ints consumed by `random.randint` /
  `random.choice`;
* Python exceptions are modelled with `Except String`; because mutations made
  before a `raise` persist, fallible operations return the mutated state
  alongside the `Except` value;
* the item catalog (`game/items.py`) is out of scope per the specification;
  the per-rarity item-name lists the drop system precomputes from it are a
  `DropLists` parameter of the state.
-/

namespace Ashbee

/- Batteries seals the rational arithmetic definitions; re-opening them for
elaboration lets concrete model runs be settled by `decide` (the kernel
unfolds them regardless). -/
attribute [local semireducible] Rat.add Rat.mul Rat.inv Rat.ofScientific Rat.sub

/-! ### Python numeric helpers -/

/-- Python `int(q)` on a float: truncation toward zero. -/
def pyInt (q : ℚ) : Int := if q < 0 then Int.ceil q else Int.floor q

/-! ### Random oracle

`random.random()` pops the float stream; `random.randint`/`random.choice`
pop the int stream.  (In CPython both come from one Mersenne-Twister stream;
no claim relates two draws, so two independent oracle streams are an
equivalent model.) -/

structure Rng where
  floats : List ℚ
  ints : List Int
deriving DecidableEq

/-- Model of `random.random()`: a uniform draw in `[0,1)` from the oracle. -/
def next_float (r : Rng) : ℚ × Rng :=
  (r.floats.headD 0, { r with floats := r.floats.tail })

/-- Model of `random.randint(a, b)` for a range known to be non-empty:
the oracle value is folded into `[a, b]`. -/
def rand_int (a b : Int) (r : Rng) : Int × Rng :=
  (a + Int.fmod (r.ints.headD 0) (b - a + 1), { r with ints := r.ints.tail })

/-- Model of `random.randint(a, b)` in full: raises `ValueError` when the
range is empty (reachable from `_effect_quantum_strike` with negative value). -/
def rand_int_checked (a b : Int) (r : Rng) : Except String (Int × Rng) :=
  if b < a then Except.error "empty range for randrange()" else Except.ok (rand_int a b r)

/-- Model of `random.choice(xs) if xs else None` (the guarded pattern used at
every call site): no draw is consumed when the list is empty. -/
def py_choice (xs : List String) (r : Rng) : Option String × Rng :=
  if xs.isEmpty then (none, r)
  else
    let n := r.ints.headD 0
    ((xs.get? (Int.fmod n xs.length).toNat), { r with ints := r.ints.tail })

/-! ### Drop engine (`game/drops.py`) -/

/-- Model of `ItemRarity` (from `game/items.py`, the six tiers the drop system uses). -/
inductive ItemRarity where
  | common
  | uncommon
  | rare
  | epic
  | legendary
  | mythic
deriving DecidableEq

/-- Model of `DropSource` enum. -/
inductive DropSource where
  | mob_kill
  | boss_kill
  | exploration
  | chest_common
  | chest_uncommon
  | chest_rare
  | chest_epic
  | quest_reward
  | daily_reward
deriving DecidableEq

/-- Model of `DropTable` dataclass: six rarity probabilities plus a no-drop probability
(field order as declared in the source). -/
structure DropTable where
  common_chance : ℚ
  uncommon_chance : ℚ
  rare_chance : ℚ
  epic_chance : ℚ
  legendary_chance : ℚ
  mythic_chance : ℚ
  no_drop_chance : ℚ
deriving DecidableEq

/-- Model of `EPS = 1e-9` from `drops.py`. -/
def EPS : ℚ := 1 / 1000000000

/-- Sum of the seven stored probabilities of a `DropTable`. -/
def sum7 (t : DropTable) : ℚ :=
  t.common_chance + t.uncommon_chance + t.rare_chance + t.epic_chance +
    t.legendary_chance + t.mythic_chance + t.no_drop_chance

/-- The clamp `max(0.0, float(d[k]))` applied to each of the seven fields. -/
def clamp7 (t : DropTable) : DropTable where
  common_chance := max 0 t.common_chance
  uncommon_chance := max 0 t.uncommon_chance
  rare_chance := max 0 t.rare_chance
  epic_chance := max 0 t.epic_chance
  legendary_chance := max 0 t.legendary_chance
  mythic_chance := max 0 t.mythic_chance
  no_drop_chance := max 0 t.no_drop_chance

/-- Model of `_normalize_probs`: clamp negatives to zero, then normalize; if the sum is
(effectively) zero, spread uniformly over the seven keys. -/
def _normalize_probs (t : DropTable) : DropTable :=
  let c := clamp7 t
  let s := sum7 c
  if s ≤ EPS then ⟨1/7, 1/7, 1/7, 1/7, 1/7, 1/7, 1/7⟩
  else ⟨c.common_chance / s, c.uncommon_chance / s, c.rare_chance / s,
        c.epic_chance / s, c.legendary_chance / s, c.mythic_chance / s,
        c.no_drop_chance / s⟩

/-- Model of `DropTable.__post_init__`: clamp, check the 1e-6 tolerance, renormalize if
needed, and raise `ValueError` if the total is still off (the error branch is
unreachable over exact rationals; claim C4). -/
def post_init (t : DropTable) : Except String DropTable :=
  let p := clamp7 t
  let total := sum7 p
  if 1/1000000 < |total - 1| then
    let q := _normalize_probs p
    if 1/1000000 < |sum7 q - 1| then
      Except.error "Drop chances must sum to 1.0"
    else Except.ok q
  else Except.ok p

/-- Model of `DropTable(...)` construction: run `__post_init__`.  The fallback to the
raw fields is dead code: `post_init` never returns an error (claim C4). -/
def mk_drop_table (c u r e l m n : ℚ) : DropTable :=
  (post_init ⟨c, u, r, e, l, m, n⟩).toOption.getD ⟨c, u, r, e, l, m, n⟩

/-- Model of `LevelScaling` dataclass defaults. -/
structure LevelScaling where
  base_level : Int := 1
  uncommon_boost_per_level : ℚ := 0.007
  rare_boost_per_level : ℚ := 0.003
  epic_boost_per_level : ℚ := 0.001
  legendary_boost_per_level : ℚ := 0.0003
  mythic_boost_per_level : ℚ := 0.00005
  max_level_bonus : Int := 30

/-- Model of `DropSystem.scaling = LevelScaling()`. -/
def scaling : LevelScaling := {}

/-- Model of `DropSystem._initialize_drop_tables`: the nine base tables. -/
def drop_tables : DropSource → DropTable
  | .mob_kill => mk_drop_table 0.50 0.20 0.15 0.05 0.005 0.0001 0.0949
  | .boss_kill => mk_drop_table 0.22 0.24 0.34 0.15 0.04 0.01 0.0
  | .exploration => mk_drop_table 0.58 0.14 0.18 0.08 0.002 0.00005 0.01795
  | .chest_common => mk_drop_table 0.70 0.15 0.14 0.01 0.0 0.0 0.0
  | .chest_uncommon => mk_drop_table 0.55 0.30 0.12 0.03 0.0 0.0 0.0
  | .chest_rare => mk_drop_table 0.30 0.20 0.40 0.09 0.01 0.0 0.0
  | .chest_epic => mk_drop_table 0.10 0.18 0.36 0.30 0.05 0.01 0.0
  | .quest_reward => mk_drop_table 0.15 0.15 0.395 0.25 0.05 0.005 0.0
  | .daily_reward => mk_drop_table 0.37 0.18 0.29 0.12 0.03 0.01 0.0

/-- The boosted (uncapped) uncommon chance of `calculate_scaled_chances`. -/
def boosted_uncommon (b : DropTable) (n : Int) : ℚ :=
  b.uncommon_chance + (n : ℚ) * scaling.uncommon_boost_per_level

/-- The boosted and capped rare chance (`min(0.80, ...)`). -/
def capped_rare (b : DropTable) (n : Int) : ℚ :=
  min 0.80 (b.rare_chance + (n : ℚ) * scaling.rare_boost_per_level)

/-- The boosted and capped epic chance (`min(0.40, ...)`). -/
def capped_epic (b : DropTable) (n : Int) : ℚ :=
  min 0.40 (b.epic_chance + (n : ℚ) * scaling.epic_boost_per_level)

/-- The boosted and capped legendary chance (`min(0.20, ...)`). -/
def capped_legendary (b : DropTable) (n : Int) : ℚ :=
  min 0.20 (b.legendary_chance + (n : ℚ) * scaling.legendary_boost_per_level)

/-- The boosted and capped mythic chance (`min(0.05, ...)`). -/
def capped_mythic (b : DropTable) (n : Int) : ℚ :=
  min 0.05 (b.mythic_chance + (n : ℚ) * scaling.mythic_boost_per_level)

/-- Model of `actual_increase`: the post-cap probability mass actually added. -/
def actual_increase (b : DropTable) (n : Int) : ℚ :=
  (boosted_uncommon b n - b.uncommon_chance) + (capped_rare b n - b.rare_chance) +
    (capped_epic b n - b.epic_chance) + (capped_legendary b n - b.legendary_chance) +
    (capped_mythic b n - b.mythic_chance)

/-- Model of `new_common = max(0.05, common - actual_increase)`. -/
def new_common (b : DropTable) (n : Int) : ℚ :=
  max 0.05 (b.common_chance - actual_increase b n)

/-- The raw scaled dictionary built inside `calculate_scaled_chances` for a
positive level bonus `n`: per-rarity linear boosts, absolute caps on the four
high tiers, the post-cap total increase subtracted from common (floored at
0.05), and `no_drop` kept at its baseline. -/
def scale_raw (b : DropTable) (n : Int) : DropTable :=
  ⟨new_common b n, boosted_uncommon b n, capped_rare b n, capped_epic b n,
   capped_legendary b n, capped_mythic b n, b.no_drop_chance⟩

/-- Model of `DropSystem.calculate_scaled_chances`: no-op for a non-positive level
bonus; otherwise boost, cap, rebalance, normalize once, and construct a fresh
`DropTable` from the normalized dict (running `__post_init__` again). -/
def calculate_scaled_chances (base : DropTable) (player_level : Int) : DropTable :=
  let level_bonus := min (max 0 (player_level - scaling.base_level)) scaling.max_level_bonus
  if level_bonus ≤ 0 then base
  else
    let scaled := _normalize_probs (scale_raw base level_bonus)
    mk_drop_table scaled.common_chance scaled.uncommon_chance scaled.rare_chance
      scaled.epic_chance scaled.legendary_chance scaled.mythic_chance
      scaled.no_drop_chance

/-- The cumulative-threshold loop of `roll_rarity`: walk the tier list in
order, accumulate, and return the first tier whose cumulative sum strictly
exceeds the draw. -/
def roll_loop (roll : ℚ) : ℚ → List (ℚ × ItemRarity) → Option ItemRarity
  | _, [] => none
  | acc, (p, r) :: rest =>
      if roll < acc + p then some r else roll_loop roll (acc + p) rest

/-- The threshold evaluation of `DropSystem.roll_rarity` on an
already-scaled table, in the fixed source order mythic → legendary → epic →
rare → uncommon → common. -/
def roll_rarity (t : DropTable) (roll : ℚ) : Option ItemRarity :=
  roll_loop roll 0
    [(t.mythic_chance, .mythic), (t.legendary_chance, .legendary),
     (t.epic_chance, .epic), (t.rare_chance, .rare),
     (t.uncommon_chance, .uncommon), (t.common_chance, .common)]

/-- Model of `DropSystem.roll_rarity(source, player_level)`: scale the base table for
the player level, draw `random.random()`, and evaluate the thresholds. -/
def roll_rarity_from (src : DropSource) (player_level : Int) (rng : Rng) :
    Option ItemRarity × Rng :=
  let t := calculate_scaled_chances (drop_tables src) player_level
  let (roll, rng') := next_float rng
  (roll_rarity t roll, rng')

/-- The per-rarity item-name lists `DropSystem.__init__` precomputes from the
item catalog (the catalog itself is an opaque external table per the spec). -/
structure DropLists where
  common_items : List String
  uncommon_items : List String
  rare_items : List String
  epic_items : List String
  legendary_items : List String
  mythic_items : List String
deriving DecidableEq

/-- Model of `DropSystem.generate_drop`.  Mirrors the source's branch structure
faithfully, including its slip: the `if rarity == COMMON` assignment is
followed by a separate `if UNCOMMON / elif ... / else: available = []` chain,
whose `else` arm overwrites the common list with `[]`, so a COMMON roll always
produces no item. -/
def generate_drop (dl : DropLists) (src : DropSource) (player_level : Int)
    (exclude : List String) (rng : Rng) : Option String × Rng :=
  let (rar?, rng1) := roll_rarity_from src player_level rng
  match rar? with
  | none => (none, rng1)
  | some rar =>
    let available : List String :=
      match rar with
      | .common => []
      | .uncommon => dl.uncommon_items.filter (fun i => i ∉ exclude)
      | .rare => dl.rare_items.filter (fun i => i ∉ exclude)
      | .epic => dl.epic_items.filter (fun i => i ∉ exclude)
      | .legendary => dl.legendary_items.filter (fun i => i ∉ exclude)
      | .mythic => dl.mythic_items.filter (fun i => i ∉ exclude)
    py_choice available rng1

/-- Model of `get_mob_drop(player_level)`. -/
def get_mob_drop (dl : DropLists) (player_level : Int) (rng : Rng) :
    Option String × Rng :=
  generate_drop dl .mob_kill player_level [] rng

/-- Model of `get_boss_drop(player_level)`. -/
def get_boss_drop (dl : DropLists) (player_level : Int) (rng : Rng) :
    Option String × Rng :=
  generate_drop dl .boss_kill player_level [] rng

/-! ### Data model (`game/models.py`)

Python objects are attribute dictionaries; the dataclass fields below are
modelled as record fields.  Attributes that only ever appear dynamically
(`void_resist`, `immunity`, `soul_steal`, `leadership`, `true_strike`,
the legacy `encounter` pointer) are modelled as fields with the value their
creating handler would install on first access (`0` / `false`): every such
handler runs `if not hasattr: x = 0` before `x += v`, which is observably
`x := (get x or 0) + v`.

Python dicts of statuses are association lists with insertion-ordered keys.

Object references: each `GState` holds at most one player, one enemy and one
`Encounter` — the shape of every claim's scenario.  The `current_encounter`
and legacy `encounter` back-references are modelled as booleans saying
whether the entity points at the state's encounter. -/

/-- Status dict read: `d.get(k, 0)`. -/
def dict_get (m : List (String × Int)) (k : String) : Int :=
  (m.lookup k).getD 0

/-- Status dict membership: `k in d`. -/
def dict_mem (m : List (String × Int)) (k : String) : Bool :=
  (m.lookup k).isSome

/-- Status dict write: `d[k] = v` (update in place or append). -/
def dict_set (m : List (String × Int)) (k : String) (v : Int) :
    List (String × Int) :=
  match m with
  | [] => [(k, v)]
  | (k', v') :: rest =>
      if k' = k then (k, v) :: rest else (k', v') :: dict_set rest k v

/-- Status dict delete: `del d[k]` / `d.pop(k, None)` (keys are unique). -/
def dict_pop (m : List (String × Int)) (k : String) : List (String × Int) :=
  m.filter (fun kv => kv.1 ≠ k)

/-- Model of `Encounter` flags and log (`engine.py`); the engine/player/enemy
references live in the enclosing `GState`. -/
structure Enc where
  resolved : Bool
  rewarded : Bool
  log : List String
deriving DecidableEq

/-- Model of `Enemy` dataclass (the fields the modelled operations read or write). -/
structure EState where
  name : String
  hp : Int
  max_hp : Int
  atk : Int
  armor : Int
  type : String
  enraged : Bool
  special_cd : Int
  traits : List String
  statuses : List (String × Int)
  creature_type : String
  affinity : String
  rarity : String
  fire_resist : Int
  cold_resist : Int
  magic_resist : Int
  vulnerabilities : List String
  is_enemy : Bool
  cur_enc : Bool
  legacy_enc : Bool
  gold_reward : Int
  xp_reward : Int
deriving DecidableEq

/-- Model of `Player` dataclass (the fields the modelled operations read or write,
plus the dynamically-created attributes listed above). -/
structure PState where
  name : String
  location : String
  level : Int
  xp : Int
  xp_to_next : Int
  max_hp : Int
  hp : Int
  gold : Int
  clazz : Option String
  inventory : List String
  has_combat : Bool
  skill_cd : Int
  step : Int
  is_player : Bool
  in_combat : Bool
  cur_enc : Bool
  legacy_enc : Bool
  damage_bonus : Int
  armor_bonus : Int
  dodge_bonus : Int
  crit_chance : Int
  block_chance : Int
  mana : Int
  max_mana : Int
  mana_regen : Int
  spell_power : Int
  magic_damage_bonus : Int
  fire_resist : Int
  cold_resist : Int
  magic_resist : Int
  void_protection : Int
  life_steal : Int
  armor_pierce : Int
  pierce : Int
  heal_on_kill : Int
  escape_bonus : Int
  luck_bonus : Int
  regen : Int
  temp_damage_buff : Int
  temp_damage_duration : Int
  temp_armor_debuff : Int
  temp_armor_debuff_duration : Int
  speed_buff : Int
  speed_duration : Int
  statuses : List (String × Int)
  stealth_turns : Int
  immortal_turns : Int
  divine_shield : Int
  extra_turns : Int
  resurrect_charges : Int
  true_immortal : Bool
  ascended : Bool
  divine_power : Int
  cosmic_power : Bool
  omnipotent : Bool
  reality_control : Bool
  time_control : Bool
  time_master : Bool
  star_control : Bool
  multiverse_control : Bool
  infinite_knowledge : Bool
  infinite_regen : Bool
  energy_body : Bool
  ancient_wisdom : Bool
  can_fly : Bool
  detect_lies : Bool
  night_vision : Bool
  matter_creation : Bool
  dimensional_power : Bool
  grip_strength : Int
  kick_damage : Int
  punch_damage : Int
  stun_chance : Int
  reflect_chance : Int
  phase_shift_chance : Int
  stealth_bonus : Int
  energy_absorb : Int
  hp_drain_per_turn : Int
  worlds_created : Int
  stat_bonus : Int
  summoned_ally : Option (Int × Int)
  void_resist : Int
  immunity : Int
  soul_steal : Int
  leadership : Int
  true_strike : Bool
deriving DecidableEq

/-- The whole combat-relevant world: one player, the current combat enemy
object (if any), the encounter object (if one was created), the random
oracle, and the drop-system item lists. -/
structure GState where
  player : PState
  enemy : Option EState
  enc : Option Enc
  rng : Rng
  drops : DropLists
deriving DecidableEq

/-! ### Player progression (`models.py`) -/

/-- Model of `Player.level_up`: bump level, reset XP, recompute threshold, grow and
refill HP (the `emit` side channel is out of scope). -/
def level_up (p : PState) : PState × String :=
  let level := p.level + 1
  let hp_gain : Int := 2 + (if p.clazz = some "warrior" then 1 else 0)
  let max_hp := p.max_hp + hp_gain
  ({ p with level := level, xp := 0, xp_to_next := 10 + (level - 1) * 6,
             max_hp := max_hp, hp := max_hp },
   "Level " ++ toString level ++ "! Max HP +" ++ toString hp_gain ++ ". Fully healed.")

/-- The `while self.xp >= self.xp_to_next` loop of `grant_xp`, fuelled: the
source loop terminates because `level_up` resets `xp` to 0 and the recomputed
threshold is positive for every state reachable in the claims; the fuel is
never exhausted there. -/
def grant_xp_loop : Nat → PState → List String → PState × List String
  | 0, p, msgs => (p, msgs)
  | Nat.succ fuel, p, msgs =>
      if p.xp_to_next ≤ p.xp then
        let p1 := { p with xp := p.xp - p.xp_to_next }
        let (p2, m) := level_up p1
        grant_xp_loop fuel p2 (msgs ++ [m])
      else (p, msgs)

/-- Model of `Player.grant_xp(amount)`. -/
def grant_xp (p : PState) (amount : Int) : PState × String :=
  let p0 := { p with xp := p.xp + amount }
  let (p1, msgs) := grant_xp_loop 1000 p0 ["+" ++ toString amount ++ " XP"]
  (p1, String.intercalate " — " msgs)

/-- Model of `Player.get_total_damage`. -/
def get_total_damage (p : PState) : Int :=
  let base := 1 + Int.fdiv p.level 2
  let bonus := p.damage_bonus + p.temp_damage_buff + p.stat_bonus
  let bonus := if p.ascended then bonus + 50 else bonus
  base + bonus

/-- Model of `Player.get_spell_power` (mage passive: +1 per level). -/
def get_spell_power (p : PState) : Int :=
  p.spell_power + (if p.clazz = some "mage" then p.level else 0)

/-- Model of `Player.get_magic_damage_bonus`. -/
def get_magic_damage_bonus (p : PState) : Int :=
  p.magic_damage_bonus + get_spell_power p

/-! ### Enemy trait helpers (`models.py`) -/

/-- The rough level estimate `max(1, (max_hp - 5) // 3)` used by the trait
formulas. -/
def enemy_level_est (e : EState) : Int :=
  max 1 (Int.fdiv (e.max_hp - 5) 3)

/-- The rarity multiplier table used by the trait formulas. -/
def rarity_bonus_of (r : String) : ℚ :=
  if r = "common" then 1 else if r = "rare" then 1.2
  else if r = "epic" then 1.4 else if r = "legendary" then 1.6
  else if r = "mythic" then 1.8 else 1

/-- Model of `Enemy.get_dodge_chance`: evasive / phase_shift traits scaled by level and
rarity, capped at 65. -/
def EState.get_dodge_chance (e : EState) : Int :=
  let lvl := enemy_level_est e
  let rb := rarity_bonus_of e.rarity
  let d1 : Int :=
    if "evasive" ∈ e.traits then pyInt ((20 + (lvl : ℚ) * 1.5) * rb) else 0
  let d2 : Int :=
    if "phase_shift" ∈ e.traits then pyInt ((12 + (lvl : ℚ) * 1) * rb) else 0
  min (d1 + d2) 65

/-- Model of `Enemy.get_armor_bonus`: shell / stone_skin / ice_armor traits scaled by
level and rarity. -/
def EState.get_armor_bonus (e : EState) : Int :=
  let lvl := enemy_level_est e
  let rb := rarity_bonus_of e.rarity
  let b1 : Int :=
    if "shell" ∈ e.traits then pyInt ((2 + (lvl : ℚ) * 0.3) * rb) else 0
  let b2 : Int :=
    if "stone_skin" ∈ e.traits then pyInt ((3 + (lvl : ℚ) * 0.4) * rb) else 0
  let b3 : Int :=
    if "ice_armor" ∈ e.traits then pyInt ((2 + (lvl : ℚ) * 0.25) * rb) else 0
  b1 + b2 + b3

/-- Model of `Enemy.get_effective_armor`. -/
def EState.get_effective_armor (e : EState) : Int :=
  e.armor + e.get_armor_bonus

/-! ### Encounter state machine and damage pipeline (`game/engine.py`) -/

/-- Model of `self.log.append(msg)` on the attached encounter. -/
def enc_log_append (s : GState) (m : String) : GState :=
  match s.enc with
  | none => s
  | some e => { s with enc := some { e with log := e.log ++ [m] } }

/-- Model of `Encounter.end()`: mark resolved, clear the player's combat flag and
combat dict, and clear both `current_encounter` back-references.  The legacy
`encounter` attribute set in `Encounter.__init__` is not cleared by the
source, so `legacy_enc` stays. -/
def end_enc (s : GState) : GState :=
  match s.enc with
  | none => s
  | some e =>
      { s with
        enc := some { e with resolved := true },
        player := { s.player with
                    in_combat := false, has_combat := false, cur_enc := false },
        enemy := s.enemy.map (fun en => { en with cur_enc := false }) }

/-- Model of `GameEngine._handle_mob_victory`: gold roll, a mob drop, and an XP grant.
This path never raises. -/
def _handle_mob_victory (s : GState) : GState × String :=
  let (g, rng1) := rand_int 2 7 s.rng
  let (x, rng2) := rand_int 4 8 rng1
  let p1 := { s.player with gold := s.player.gold + g }
  let (drop?, rng3) := get_mob_drop s.drops p1.level rng2
  match drop? with
  | some item =>
      let p2 := { p1 with inventory := p1.inventory ++ [item] }
      let (p3, xmsg) := grant_xp p2 x
      ({ s with player := p3, rng := rng3 },
       "Foe defeated! +" ++ toString g ++ "g, found a " ++ item ++ ", " ++ xmsg ++ ".")
  | none =>
      let (p3, xmsg) := grant_xp p1 x
      ({ s with player := p3, rng := rng3 },
       "Foe defeated! +" ++ toString g ++ "g, " ++ xmsg ++ ".")

/-- Model of `GameEngine._handle_boss_victory`: gold roll, a guaranteed drop attempt
plus two chance-based extra drop attempts, then the drop message.  When the
drop list ends up empty (e.g. the guaranteed roll came up COMMON, which the
drop system turns into no item) the message formatter evaluates `drops[-1]`
and raises `IndexError` — after the gold was granted but before the XP
grant. -/
def _handle_boss_victory (s : GState) : GState × Except String String :=
  let (g, rng1) := rand_int 8 16 s.rng
  let (x, rng2) := rand_int 10 16 rng1
  let p1 := { s.player with gold := s.player.gold + g }
  let (primary?, rng3) := get_boss_drop s.drops p1.level rng2
  let step1 : PState × List String :=
    match primary? with
    | some it => ({ p1 with inventory := p1.inventory ++ [it] }, [it])
    | none => (p1, [])
  let p2 := step1.1
  let drops1 := step1.2
  let (d1, rng4) := next_float rng3
  let step2 : PState × List String × Rng :=
    if d1 < 0.30 then
      let (sec?, rng') := get_boss_drop s.drops p2.level rng4
      match sec? with
      | some it =>
          if some it ≠ primary? then
            ({ p2 with inventory := p2.inventory ++ [it] }, drops1 ++ [it], rng')
          else (p2, drops1, rng')
      | none => (p2, drops1, rng')
    else (p2, drops1, rng4)
  let p3 := step2.1
  let drops2 := step2.2.1
  let rng5 := step2.2.2
  let (d2, rng6) := next_float rng5
  let step3 : PState × List String × Rng :=
    if d2 < 0.10 then
      let (ter?, rng') := get_boss_drop s.drops p3.level rng6
      match ter? with
      | some it =>
          if it ∉ drops2 then
            ({ p3 with inventory := p3.inventory ++ [it] }, drops2 ++ [it], rng')
          else (p3, drops2, rng')
      | none => (p3, drops2, rng')
    else (p3, drops2, rng6)
  let p4 := step3.1
  let drops3 := step3.2.1
  let rng7 := step3.2.2
  match drops3 with
  | [] => ({ s with player := p4, rng := rng7 }, Except.error "list index out of range")
  | [a] =>
      let (p5, xmsg) := grant_xp p4 x
      ({ s with player := p5, rng := rng7 },
       Except.ok ("Boss defeated! +" ++ toString g ++ "g, found " ++ a ++ ", " ++ xmsg ++ "."))
  | [a, b] =>
      let (p5, xmsg) := grant_xp p4 x
      ({ s with player := p5, rng := rng7 },
       Except.ok ("Boss defeated! +" ++ toString g ++ "g, found " ++ a ++ " and " ++ b ++ ", " ++ xmsg ++ "."))
  | more =>
      let (p5, xmsg) := grant_xp p4 x
      ({ s with player := p5, rng := rng7 },
       Except.ok ("Boss defeated! +" ++ toString g ++ "g, found " ++
         String.intercalate ", " more.dropLast ++ ", and " ++ more.getLastD "" ++
         ", " ++ xmsg ++ "."))

/-- Model of `Encounter.reward_player_once(source)`: empty string with no state change
if already rewarded; otherwise set `rewarded := true` first, dispatch to the
boss or mob victory handler, and append to the log.  An exception from the
boss handler propagates (so the log append is skipped and `rewarded` stays
true with the partial grant applied). -/
def reward_player_once (source : String) (s : GState) : GState × Except String String :=
  match s.enc with
  | none => (s, Except.ok "")
  | some e =>
      if e.rewarded then (s, Except.ok "")
      else
        let s1 := { s with enc := some { e with rewarded := true } }
        let is_boss : Bool :=
          match s1.enemy with
          | some en => en.type = "boss"
          | none => false
        if is_boss then
          match _handle_boss_victory s1 with
          | (s2, Except.error err) => (s2, Except.error err)
          | (s2, Except.ok msg) =>
              (enc_log_append s2
                (msg ++ " (source: " ++ (if source = "" then "damage" else source) ++ ")"),
               Except.ok msg)
        else
          let (s2, msg) := _handle_mob_victory s1
          (enc_log_append s2
            (msg ++ " (source: " ++ (if source = "" then "damage" else source) ++ ")"),
           Except.ok msg)

/-- The target argument of `apply_damage` / `_try_resolve_death`: the single
funnel handles both the combat enemy and the player. -/
inductive Tgt where
  | enemy
  | player
deriving DecidableEq

/-- Model of `_try_resolve_death(target, source)`: look up the target's encounter via
`current_encounter` or the legacy `encounter` pointer; on enemy death reward
once then end; on player death log and end. -/
def _try_resolve_death (t : Tgt) (source : String) (s : GState) :
    GState × Except String Unit :=
  match t with
  | .enemy =>
      match s.enemy with
      | none => (s, Except.ok ())
      | some en =>
          let enc_ref := if en.cur_enc || en.legacy_enc then s.enc else none
          if en.is_enemy = true ∧ en.hp ≤ 0 then
            match enc_ref with
            | some e =>
                if e.resolved = false then
                  match reward_player_once source s with
                  | (s1, Except.error err) => (s1, Except.error err)
                  | (s1, Except.ok _) => (end_enc s1, Except.ok ())
                else (s, Except.ok ())
            | none => (s, Except.ok ())
          else (s, Except.ok ())
  | .player =>
      let p := s.player
      let enc_ref := if p.cur_enc || p.legacy_enc then s.enc else none
      if p.is_player = true ∧ p.hp ≤ 0 then
        match enc_ref with
        | some e =>
            if e.resolved = false then
              (end_enc (enc_log_append s "Player defeated."), Except.ok ())
            else (s, Except.ok ())
        | none => (s, Except.ok ())
      else (s, Except.ok ())

/-- Model of `apply_damage(target, amount, source)`: non-positive amounts are a no-op
returning 0; otherwise clamp health at zero, resolve death, and return the
amount actually removed.  An exception raised inside death resolution
propagates (the health mutation persists). -/
def apply_damage (t : Tgt) (amount : Int) (source : String) (s : GState) :
    GState × Except String Int :=
  if amount ≤ 0 then (s, Except.ok 0)
  else
    match t with
    | .enemy =>
        match s.enemy with
        | none => (s, Except.ok 0)
        | some en =>
            let before := en.hp
            let en1 := { en with hp := max 0 (before - amount) }
            let dealt := before - en1.hp
            let s1 := { s with enemy := some en1 }
            match _try_resolve_death .enemy source s1 with
            | (s2, Except.error e) => (s2, Except.error e)
            | (s2, Except.ok _) => (s2, Except.ok dealt)
    | .player =>
        let before := s.player.hp
        let p1 := { s.player with hp := max 0 (before - amount) }
        let dealt := before - p1.hp
        let s1 := { s with player := p1 }
        match _try_resolve_death .player source s1 with
        | (s2, Except.error e) => (s2, Except.error e)
        | (s2, Except.ok _) => (s2, Except.ok dealt)

/-- Model of `_encounter_autoresolve_victory(p, source)`: when in combat against a
dead enemy, reward once and end if a live unresolved `Encounter` is attached;
otherwise take the legacy fallback, which only clears the combat flags and
returns the spoils line without granting anything. -/
def _encounter_autoresolve_victory (source : String) (s : GState) :
    GState × Except String (Option String) :=
  if s.player.has_combat = false then (s, Except.ok none)
  else
    match s.enemy with
    | none => (s, Except.ok none)
    | some en =>
        if 0 < en.hp then (s, Except.ok none)
        else
          let enc_ref := if s.player.cur_enc || s.player.legacy_enc then s.enc else none
          let live : Bool :=
            match enc_ref with
            | some e => !e.resolved
            | none => false
          if live then
            let already :=
              match enc_ref with
              | some e => e.rewarded
              | none => false
            match reward_player_once (if source = "" then "autovictory" else source) s with
            | (s1, Except.error err) => (s1, Except.error err)
            | (s1, Except.ok msg) =>
                let s2 := end_enc s1
                if already = false then
                  (s2, Except.ok (some (if msg = "" then "Foe down — you claim your spoils!" else msg)))
                else (s2, Except.ok (some "Foe down — you claim your spoils!"))
          else
            ({ s with player := { s.player with in_combat := false, has_combat := false } },
             Except.ok (some "Foe down — you claim your spoils!"))

/-- Pass `autoresolve_dead_foes_on_load` restricted to one player (the source maps
this check over all loaded players): replay the autoresolve pass when the
saved combat snapshot holds an enemy at non-positive health. -/
def autoresolve_dead_foes_on_load (s : GState) : GState × Except String (Option String) :=
  let dead : Bool :=
    match s.enemy with
    | some en => en.hp ≤ 0
    | none => false
  if s.player.has_combat = true ∧ dead = true then
    _encounter_autoresolve_victory "load_recovery" s
  else (s, Except.ok none)

/-! ### `Player.basic_hit` (`models.py`)

The basic attack writes `enemy.hp = max(0, enemy.hp - final_damage)`
directly: it does not go through `apply_damage`, so no death resolution and
no encounter interaction happen inside it (claim C1). -/

/-- The post-dodge tail of `basic_hit`: armor, the direct health write, the
Enchanted-Dagger bleed proc and life steal. -/
def basic_hit_core (s : GState) (en : EState) (p : PState) (total_damage : Int)
    (crit_msg : String) (rng : Rng) : GState × String :=
  let enemy_armor := en.get_effective_armor
  let effective_armor := max 0 (enemy_armor - p.armor_pierce)
  let final_damage := max 1 (total_damage - effective_armor)
  let en1 := { en with hp := max 0 (en.hp - final_damage) }
  let step1 : EState × Rng × List String :=
    if "Enchanted Dagger" ∈ p.inventory then
      let (d3, rng') := next_float rng
      if d3 < 0.15 ∧ en1.type = "mob" then
        ({ en1 with statuses := dict_set en1.statuses "bleed" (dict_get en1.statuses "bleed" + 2) },
         rng', ["bleeding applied"])
      else (en1, rng', [])
    else (en1, rng, [])
  let en2 := step1.1
  let rng2 := step1.2.1
  let fx1 := step1.2.2
  let step2 : PState × List String :=
    if 0 < p.life_steal then
      let steal := min (min p.life_steal final_damage) (p.max_hp - p.hp)
      if 0 < steal then ({ p with hp := p.hp + steal }, fx1 ++ ["stole " ++ toString steal ++ " HP"])
      else (p, fx1)
    else (p, fx1)
  let p2 := step2.1
  let fx2 := step2.2
  let msg := "You hit for " ++ toString final_damage ++ crit_msg ++ "."
  let msg := if fx2.isEmpty then msg else msg ++ " (" ++ String.intercalate ", " fx2 ++ ")"
  ({ s with player := p2, enemy := some en2, rng := rng2 }, msg)

/-- Model of `Player.basic_hit(enemy)`: crit roll, dodge check, then the direct
health write of `basic_hit_core`. -/
def basic_hit (s : GState) : GState × String :=
  match s.enemy with
  | none => (s, "")
  | some en =>
      let p := s.player
      let td0 := get_total_damage p
      let (d1, rng1) := next_float s.rng
      let is_crit := d1 < (p.crit_chance : ℚ) / 100
      let total_damage := if is_crit then pyInt ((td0 : ℚ) * 1.5) else td0
      let crit_msg := if is_crit then " CRITICAL HIT!" else ""
      let enemy_dodge := en.get_dodge_chance
      if p.true_strike = false ∧ 0 < enemy_dodge then
        let (d2, rng2) := next_float rng1
        if d2 * 100 < (enemy_dodge : ℚ) then
          ({ s with rng := rng2 },
           "Your attack misses! The " ++ en.name ++ " dodges with evasive grace.")
        else basic_hit_core s en p total_damage crit_msg rng2
      else basic_hit_core s en p total_damage crit_msg rng1

/-! ### Effect dispatch engine (`game/effects.py`)

Each handler takes `(value, duration)` and the world state and returns the
(possibly mutated) state together with either a narration string or a raised
exception; mutations made before a raise persist, mirroring Python. -/

/-- Python's `duration or n` (`None` and `0` are both falsy). -/
def py_or (duration : Option Int) (n : Int) : Int :=
  match duration with
  | some v => if v = 0 then n else v
  | none => n

/-- Model of `EffectProcessor.calculate_elemental_damage`: a listed vulnerability
multiplies by 1.5 (truncated); the Enemy dataclass only declares
`fire_resist`, `cold_resist` and `magic_resist`, so the `hasattr` check on
`f"{damage_type}_resist"` succeeds exactly for those three types, where the
flat reduction floored at 1 applies (even when the resistance is 0). -/
def calculate_elemental_damage (base_damage : Int) (damage_type : String)
    (enemy? : Option EState) : Int :=
  match enemy? with
  | none => base_damage
  | some e =>
      let a1 :=
        if damage_type ∈ e.vulnerabilities then pyInt ((base_damage : ℚ) * 1.5)
        else base_damage
      if damage_type = "fire" then max 1 (a1 - e.fire_resist)
      else if damage_type = "cold" then max 1 (a1 - e.cold_resist)
      else if damage_type = "magic" then max 1 (a1 - e.magic_resist)
      else a1

/-- The shape of a registered effect handler as invoked by `apply_effect`
with `(value, player, enemy, duration)`: player and enemy live in the
state. -/
def Handler : Type :=
  Int → Option Int → GState → GState × Except String String

/-- Shorthand for a handler that adds `value` to one player stat field and
returns a fixed-shape message (`hasattr` init plus `+=` in the source). -/
def stat_add (upd : PState → Int → PState) (msg_pre msg_post : String) : Handler :=
  fun value _ s =>
    ({ s with player := upd s.player value },
     Except.ok (msg_pre ++ toString value ++ msg_post))

def _effect_heal : Handler := fun value _ s =>
  let p := s.player
  let new_hp := min p.max_hp (p.hp + value)
  let actual := new_hp - p.hp
  ({ s with player := { p with hp := new_hp } },
   Except.ok (if 0 < actual then "healed " ++ toString actual ++ " HP"
              else "already at full health"))

def _effect_damage : Handler :=
  stat_add (fun p v => { p with damage_bonus := p.damage_bonus + v })
    "damage increased by " ""

def _effect_armor : Handler :=
  stat_add (fun p v => { p with armor_bonus := p.armor_bonus + v })
    "armor increased by " ""

def _effect_mana : Handler := fun value _ s =>
  let p := s.player
  ({ s with player := { p with mana := min p.max_mana (p.mana + value) } },
   Except.ok ("restored " ++ toString value ++ " mana"))

def _effect_max_hp_bonus : Handler := fun value _ s =>
  let p := s.player
  ({ s with player := { p with max_hp := p.max_hp + value, hp := p.hp + value } },
   Except.ok ("max HP increased by " ++ toString value))

def _effect_damage_buff : Handler := fun value duration s =>
  let p := s.player
  ({ s with player := { p with
      temp_damage_buff := max p.temp_damage_buff value,
      temp_damage_duration := max p.temp_damage_duration (py_or duration 5) } },
   Except.ok ("damage boosted by " ++ toString value ++ " for " ++
     toString (py_or duration 5) ++ " turns"))

def _effect_armor_debuff : Handler := fun value duration s =>
  let p := s.player
  ({ s with player := { p with
      temp_armor_debuff := max p.temp_armor_debuff value,
      temp_armor_debuff_duration := max p.temp_armor_debuff_duration (py_or duration 5) } },
   Except.ok ("armor reduced by " ++ toString value ++ " for " ++
     toString (py_or duration 5) ++ " turns"))

def _effect_dodge : Handler :=
  stat_add (fun p v => { p with dodge_bonus := p.dodge_bonus + v })
    "dodge chance increased by " "%"

def _effect_crit_chance : Handler :=
  stat_add (fun p v => { p with crit_chance := p.crit_chance + v })
    "critical hit chance increased by " "%"

def _effect_block_chance : Handler :=
  stat_add (fun p v => { p with block_chance := p.block_chance + v })
    "block chance increased by " "%"

def _effect_life_steal : Handler :=
  stat_add (fun p v => { p with life_steal := p.life_steal + v })
    "life steal increased by " ""

def _effect_pierce : Handler := fun value _ s =>
  ({ s with player := { s.player with pierce := s.player.pierce + value } },
   Except.ok "attacks now pierce armor")

def _effect_armor_pierce : Handler :=
  stat_add (fun p v => { p with armor_pierce := p.armor_pierce + v })
    "armor piercing increased by " ""

/-- Handler `_effect_true_strike` is declared with a single `ctx` parameter, so the
uniform invocation `handler(value, player, enemy, duration)` in
`apply_effect` raises `TypeError` before any mutation. -/
def _effect_true_strike : Handler := fun _ _ s =>
  (s, Except.error
    "EffectProcessor._effect_true_strike() takes 2 positional arguments but 5 were given")

def _effect_bleed : Handler := fun value duration s =>
  match s.enemy with
  | some en =>
      ({ s with enemy := some { en with
          statuses := dict_set en.statuses "bleed"
            (dict_get en.statuses "bleed" + py_or duration 3) } },
       Except.ok ("enemy bleeding for " ++ toString value ++ " damage over " ++
         toString (py_or duration 3) ++ " turns"))
  | none => (s, Except.ok "no target for bleeding")

def _effect_burn : Handler := fun value duration s =>
  match s.enemy with
  | some en =>
      ({ s with enemy := some { en with
          statuses := dict_set en.statuses "burn"
            (dict_get en.statuses "burn" + py_or duration 3) } },
       Except.ok ("enemy burning for " ++ toString value ++ " damage over " ++
         toString (py_or duration 3) ++ " turns"))
  | none => (s, Except.ok "flames surround you harmlessly")

def _effect_poison : Handler := fun value duration s =>
  match s.enemy with
  | some en =>
      ({ s with enemy := some { en with
          statuses := dict_set en.statuses "poison"
            (dict_get en.statuses "poison" + py_or duration 3) } },
       Except.ok ("enemy poisoned for " ++ toString value ++ " damage over " ++
         toString (py_or duration 3) ++ " turns"))
  | none => (s, Except.ok "you build poison immunity")

def _effect_regen : Handler :=
  stat_add (fun p v => { p with regen := p.regen + v })
    "regeneration increased by " " HP per turn"

def _effect_stun_chance : Handler :=
  stat_add (fun p v => { p with stun_chance := p.stun_chance + v })
    "stun chance increased by " "%"

def _effect_intimidate : Handler := fun _ duration s =>
  match s.enemy with
  | some en =>
      ({ s with enemy := some { en with
          statuses := dict_set en.statuses "intimidated" (py_or duration 3) } },
       Except.ok ("enemy intimidated for " ++ toString (py_or duration 3) ++ " turns"))
  | none => (s, Except.ok "you look more intimidating")

def _effect_fire_damage : Handler := fun value _ s =>
  match s.enemy with
  | none =>
      (s, Except.ok ("fire energy courses through you (+" ++ toString value ++ " fire power)"))
  | some en0 =>
      let spb := Int.fdiv (get_spell_power s.player) 2
      let boosted := value + spb
      let actual := calculate_elemental_damage boosted "fire" (some en0)
      match apply_damage .enemy actual "fire" s with
      | (s1, Except.error e) => (s1, Except.error e)
      | (s1, Except.ok _) =>
          let suffix := if spb ≠ 0 then " (+" ++ toString spb ++ " spell power)" else ""
          if "fire" ∈ en0.vulnerabilities then
            (s1, Except.ok ("fire damage: " ++ toString actual ++ " (effective vs " ++
              en0.creature_type ++ "!)" ++ suffix))
          else (s1, Except.ok ("fire damage: " ++ toString actual ++ suffix))

def _effect_ice_damage : Handler := fun value _ s =>
  match s.enemy with
  | none => (s, Except.ok "frost energy surrounds you")
  | some en0 =>
      let actual := calculate_elemental_damage value "ice" (some en0)
      match apply_damage .enemy actual "ice" s with
      | (s1, Except.error e) => (s1, Except.error e)
      | (s1, Except.ok _) =>
          let (d, rng') := next_float s1.rng
          let s2 := { s1 with rng := rng' }
          let s3 :=
            if d < 0.3 then
              { s2 with enemy := s2.enemy.map (fun en =>
                          { en with statuses := dict_set en.statuses "frozen" 1 }) }
            else s2
          if "ice" ∈ en0.vulnerabilities then
            (s3, Except.ok ("frost damage: " ++ toString actual ++ " (effective vs " ++
              en0.creature_type ++ "!)"))
          else (s3, Except.ok ("frost damage: " ++ toString actual))

def _effect_earth_damage : Handler := fun value _ s =>
  match s.enemy with
  | none => (s, Except.ok "earth energy surrounds you")
  | some en0 =>
      let actual := calculate_elemental_damage value "earth" (some en0)
      match apply_damage .enemy actual "earth" s with
      | (s1, Except.error e) => (s1, Except.error e)
      | (s1, Except.ok _) =>
          let (d, rng') := next_float s1.rng
          let s2 := { s1 with rng := rng' }
          let s3 :=
            if d < 0.3 then
              { s2 with enemy := s2.enemy.map (fun en =>
                          { en with statuses := dict_set en.statuses "stunned" 1 }) }
            else s2
          if "earth" ∈ en0.vulnerabilities then
            (s3, Except.ok ("earth damage: " ++ toString actual ++ " (effective vs " ++
              en0.creature_type ++ "!)"))
          else (s3, Except.ok ("earth damage: " ++ toString actual))

def _effect_lightning : Handler := fun value _ s =>
  match s.enemy with
  | none => (s, Except.ok "lightning power builds within you")
  | some _ =>
      match apply_damage .enemy value "lightning" s with
      | (s1, Except.error e) => (s1, Except.error e)
      | (s1, Except.ok _) =>
          (s1, Except.ok ("lightning strikes for " ++ toString value ++ " damage"))

def _effect_lightning_damage : Handler := fun value _ s =>
  match s.enemy with
  | none => (s, Except.ok "lightning crackles around you")
  | some _ =>
      match apply_damage .enemy value "lightning" s with
      | (s1, Except.error e) => (s1, Except.error e)
      | (s1, Except.ok _) =>
          let (d, rng') := next_float s1.rng
          let s2 := { s1 with rng := rng' }
          let s3 :=
            if d < 0.2 then
              { s2 with enemy := s2.enemy.map (fun en =>
                          { en with statuses := dict_set en.statuses "stunned" 1 }) }
            else s2
          (s3, Except.ok ("lightning damage: " ++ toString value))

def _effect_void_damage : Handler := fun value _ s =>
  match s.enemy with
  | none => (s, Except.ok "void energy flows through you")
  | some _ =>
      match apply_damage .enemy value "void" s with
      | (s1, Except.error e) => (s1, Except.error e)
      | (s1, Except.ok _) =>
          (s1, Except.ok ("void damage: " ++ toString value ++ " (ignores all defense)"))

def _effect_divine_damage : Handler := fun value _ s =>
  match s.enemy with
  | none => (s, Except.ok "divine power flows through you")
  | some en0 =>
      let a0 := calculate_elemental_damage value "divine" (some en0)
      let a1 :=
        if en0.creature_type = "demon" ∨ en0.creature_type = "undead" then
          pyInt ((a0 : ℚ) * 1.5)
        else a0
      let actual :=
        if en0.affinity = "darkness" ∨ en0.affinity = "void" then
          pyInt ((a1 : ℚ) * 1.3)
        else a1
      match apply_damage .enemy actual "divine" s with
      | (s1, Except.error e) => (s1, Except.error e)
      | (s1, Except.ok _) =>
          if "divine" ∈ en0.vulnerabilities then
            (s1, Except.ok ("divine wrath: " ++ toString actual ++ " (very effective vs " ++
              en0.creature_type ++ "!)"))
          else if en0.creature_type = "demon" ∨ en0.creature_type = "undead" then
            (s1, Except.ok ("divine wrath: " ++ toString actual ++ " (devastating vs evil!)"))
          else (s1, Except.ok ("divine power: " ++ toString actual))

def _effect_magic_damage : Handler := fun value _ s =>
  let p1 := { s.player with magic_damage_bonus := s.player.magic_damage_bonus + value }
  let s1 := { s with player := p1 }
  if p1.clazz = some "mage" then
    (s1, Except.ok ("magic damage increased by " ++ toString value ++
      " (total magic bonus: " ++ toString (get_magic_damage_bonus p1) ++ ")"))
  else (s1, Except.ok ("magic damage increased by " ++ toString value))

def _effect_undead_damage : Handler := fun value _ s =>
  match s.enemy with
  | none => (s, Except.ok ("prepared to deal +" ++ toString value ++ " damage to undead"))
  | some en0 =>
      if en0.creature_type = "undead" then
        let actual := value * 2
        match apply_damage .enemy actual "undead_bane" s with
        | (s1, Except.error e) => (s1, Except.error e)
        | (s1, Except.ok _) =>
            (s1, Except.ok ("UNDEAD SLAYING: " ++ toString actual ++
              " bonus damage (devastating vs undead!)"))
      else
        (s, Except.ok ("weapon glows but has no effect vs " ++ en0.creature_type))

def _effect_light_damage : Handler := fun value _ s =>
  match s.enemy with
  | none => (s, Except.ok "holy light surrounds you")
  | some en0 =>
      let spb := Int.fdiv (get_spell_power s.player) 2
      let boosted := value + spb
      let a0 := calculate_elemental_damage boosted "light" (some en0)
      let a1 :=
        if en0.affinity = "darkness" ∨ en0.affinity = "void" then
          pyInt ((a0 : ℚ) * 1.3)
        else a0
      let actual :=
        if en0.creature_type = "undead" then pyInt ((a1 : ℚ) * 1.3) else a1
      match apply_damage .enemy actual "light" s with
      | (s1, Except.error e) => (s1, Except.error e)
      | (s1, Except.ok _) =>
          if spb ≠ 0 then
            if "light" ∈ en0.vulnerabilities then
              (s1, Except.ok ("holy light: " ++ toString actual ++
                " damage (very effective vs " ++ en0.creature_type ++ "! +" ++
                toString spb ++ " spell power)"))
            else if en0.affinity = "darkness" ∨ en0.affinity = "void" then
              (s1, Except.ok ("holy light: " ++ toString actual ++
                " damage (effective vs darkness! +" ++ toString spb ++ " spell power)"))
            else
              (s1, Except.ok ("holy light: " ++ toString actual ++ " damage (+" ++
                toString spb ++ " spell power)"))
          else
            if "light" ∈ en0.vulnerabilities then
              (s1, Except.ok ("holy light: " ++ toString actual ++
                " damage (very effective vs " ++ en0.creature_type ++ "!)"))
            else if en0.affinity = "darkness" ∨ en0.affinity = "void" then
              (s1, Except.ok ("holy light: " ++ toString actual ++
                " damage (effective vs darkness!)"))
            else (s1, Except.ok ("holy light: " ++ toString actual ++ " damage"))

def _effect_fire_resist : Handler :=
  stat_add (fun p v => { p with fire_resist := p.fire_resist + v })
    "fire resistance increased by " "%"

def _effect_cold_resist : Handler :=
  stat_add (fun p v => { p with cold_resist := p.cold_resist + v })
    "cold resistance increased by " "%"

def _effect_magic_resist : Handler :=
  stat_add (fun p v => { p with magic_resist := p.magic_resist + v })
    "magic resistance increased by " "%"

def _effect_all_resist : Handler := fun value _ s =>
  let p := s.player
  ({ s with player := { p with
      fire_resist := p.fire_resist + value,
      cold_resist := p.cold_resist + value,
      magic_resist := p.magic_resist + value } },
   Except.ok ("all resistances increased by " ++ toString value ++ "%"))

def _effect_void_protection : Handler :=
  stat_add (fun p v => { p with void_resist := p.void_resist + v })
    "void resistances increased by " "%"

def _effect_divine_shield : Handler := fun value _ s =>
  ({ s with player := { s.player with
      divine_shield := max s.player.divine_shield value } },
   Except.ok ("divine shield absorbs " ++ toString value ++ " damage"))

def _effect_stealth : Handler := fun value duration s =>
  let turns := py_or duration value
  ({ s with player := { s.player with
      stealth_turns := max s.player.stealth_turns turns } },
   Except.ok ("stealthed for " ++ toString turns ++ " turns"))

def _effect_stealth_bonus : Handler :=
  stat_add (fun p v => { p with stealth_bonus := p.stealth_bonus + v })
    "stealth effectiveness increased by " "%"

def _effect_speed_buff : Handler := fun value duration s =>
  ({ s with player := { s.player with speed_buff := max s.player.speed_buff value } },
   Except.ok ("speed increased by " ++ toString value ++ " for " ++
     toString (py_or duration 5) ++ " turns"))

def _effect_escape_chance : Handler :=
  stat_add (fun p v => { p with escape_bonus := p.escape_bonus + v })
    "escape chance increased by " "%"

def _effect_night_vision : Handler := fun _ _ s =>
  ({ s with player := { s.player with night_vision := true } },
   Except.ok "gained night vision")

def _effect_grip : Handler :=
  stat_add (fun p v => { p with grip_strength := p.grip_strength + v })
    "grip strength increased by " ""

def _effect_mana_regen : Handler :=
  stat_add (fun p v => { p with mana_regen := p.mana_regen + v })
    "mana regeneration increased by " ""

def _effect_spell_power : Handler := fun value _ s =>
  let p1 := { s.player with spell_power := s.player.spell_power + value }
  let s1 := { s with player := p1 }
  if p1.clazz = some "mage" then
    (s1, Except.ok ("spell power increased by " ++ toString value ++
      " (total spell power: " ++ toString (get_spell_power p1) ++ ")"))
  else (s1, Except.ok ("spell power increased by " ++ toString value))

def _effect_energy_absorb : Handler :=
  stat_add (fun p v => { p with energy_absorb := p.energy_absorb + v })
    "energy absorption increased by " "%"

def _effect_reflect : Handler :=
  stat_add (fun p v => { p with reflect_chance := p.reflect_chance + v })
    "magic reflection increased by " "%"

def _effect_phase_shift : Handler :=
  stat_add (fun p v => { p with phase_shift_chance := p.phase_shift_chance + v })
    "phase shift chance increased by " "%"

def _effect_extra_turn : Handler :=
  stat_add (fun p v => { p with extra_turns := p.extra_turns + v })
    "gained " " extra turn(s)"

def _effect_heal_on_kill : Handler :=
  stat_add (fun p v => { p with heal_on_kill := p.heal_on_kill + v })
    "heal " " HP on each kill"

def _effect_summon_ally : Handler := fun _ _ s =>
  let p := s.player
  ({ s with player := { p with summoned_ally := some (10 + p.level * 2, 3 + p.level) } },
   Except.ok "summoned a spirit ally")

def _effect_storm_call : Handler := fun value _ s =>
  match s.enemy with
  | none => (s, Except.ok "storm clouds gather around you")
  | some _ =>
      let (r, rng1) := rand_int 5 15 s.rng
      let storm_damage := value + r
      let s0 := { s with rng := rng1 }
      match apply_damage .enemy storm_damage "storm" s0 with
      | (s1, Except.error e) => (s1, Except.error e)
      | (s1, Except.ok _) =>
          (s1, Except.ok ("storm called down for " ++ toString storm_damage ++ " damage"))

def _effect_quantum_strike : Handler := fun value _ s =>
  match s.enemy with
  | none => (s, Except.ok "you exist in quantum superposition")
  | some _ =>
      match rand_int_checked value (value * 3) s.rng with
      | Except.error e => (s, Except.error e)
      | Except.ok (damage, rng1) =>
          let s0 := { s with rng := rng1 }
          match apply_damage .enemy damage "quantum" s0 with
          | (s1, Except.error e) => (s1, Except.error e)
          | (s1, Except.ok _) =>
              let (k, rng2) := rand_int 2 5 s1.rng
              ({ s1 with rng := rng2 },
               Except.ok ("quantum strike across " ++ toString k ++ " realities: " ++
                 toString damage ++ " damage"))

def _effect_cure_poison : Handler := fun _ _ s =>
  if dict_mem s.player.statuses "poison" then
    ({ s with player := { s.player with statuses := dict_pop s.player.statuses "poison" } },
     Except.ok "poison cured")
  else (s, Except.ok "no poison to cure")

def _effect_cure_all : Handler := fun _ _ s =>
  let count := s.player.statuses.length
  ({ s with player := { s.player with statuses := [] } },
   Except.ok ("all " ++ toString count ++ " status effects cured"))

def _effect_remove_curse : Handler := fun _ _ s =>
  if dict_mem s.player.statuses "cursed" then
    ({ s with player := { s.player with statuses := dict_pop s.player.statuses "cursed" } },
     Except.ok "curse removed")
  else (s, Except.ok "no curse to remove")

def _effect_resurrect : Handler :=
  stat_add (fun p v => { p with resurrect_charges := p.resurrect_charges + v })
    "gained " " resurrection charge(s)"

def _effect_immortality : Handler := fun value _ s =>
  ({ s with player := { s.player with
      immortal_turns := max s.player.immortal_turns value } },
   Except.ok ("gained immortality for " ++ toString value ++ " turns"))

def _effect_true_immortality : Handler := fun _ _ s =>
  ({ s with player := { s.player with true_immortal := true } },
   Except.ok "gained TRUE IMMORTALITY - death is impossible")

def _effect_infinite_regen : Handler := fun _ _ s =>
  ({ s with player := { s.player with infinite_regen := true } },
   Except.ok "gained INFINITE REGENERATION")

def _effect_ascend : Handler := fun _ _ s =>
  let p := s.player
  let max_hp := p.max_hp + 1000
  ({ s with player := { p with ascended := true, max_hp := max_hp, hp := max_hp } },
   Except.ok "ASCENDED TO GODHOOD - all stats massively increased")

def _effect_divine_power : Handler :=
  stat_add (fun p v => { p with divine_power := p.divine_power + v })
    "divine power increased by " ""

def _effect_cosmic_power : Handler := fun _ _ s =>
  ({ s with player := { s.player with cosmic_power := true } },
   Except.ok "gained COSMIC POWER - control over universal forces")

def _effect_omnipotence : Handler := fun _ _ s =>
  ({ s with player := { s.player with omnipotent := true } },
   Except.ok "achieved OMNIPOTENCE - unlimited power over reality")

def _effect_reality_control : Handler := fun _ _ s =>
  ({ s with player := { s.player with reality_control := true } },
   Except.ok "gained control over REALITY itself")

def _effect_time_control : Handler := fun _ _ s =>
  ({ s with player := { s.player with time_control := true } },
   Except.ok "gained control over TIME")

def _effect_time_mastery : Handler := fun _ _ s =>
  ({ s with player := { s.player with time_master := true } },
   Except.ok "achieved TIME MASTERY - complete temporal control")

def _effect_star_control : Handler := fun _ _ s =>
  ({ s with player := { s.player with star_control := true } },
   Except.ok "gained control over STARS and celestial bodies")

def _effect_multiverse_control : Handler := fun _ _ s =>
  ({ s with player := { s.player with multiverse_control := true } },
   Except.ok "gained control over the MULTIVERSE")

def _effect_probability_control : Handler :=
  stat_add (fun p v => { p with luck_bonus := p.luck_bonus + v })
    "probability manipulation increased by " "%"

def _effect_create_world : Handler :=
  stat_add (fun p v => { p with worlds_created := p.worlds_created + v })
    "gained power to CREATE " " WORLD(S)"

def _effect_create_matter : Handler := fun _ _ s =>
  ({ s with player := { s.player with matter_creation := true } },
   Except.ok "gained power to CREATE MATTER from nothing")

def _effect_dimensional_rift : Handler := fun _ _ s =>
  ({ s with player := { s.player with dimensional_power := true } },
   Except.ok "can now tear DIMENSIONAL RIFTS in space")

def _effect_infinite_knowledge : Handler := fun _ _ s =>
  ({ s with player := { s.player with infinite_knowledge := true } },
   Except.ok "gained INFINITE KNOWLEDGE of all things")

def _effect_soul_steal : Handler :=
  stat_add (fun p v => { p with soul_steal := p.soul_steal + v })
    "soul stealing power increased by " ""

def _effect_energy_body : Handler := fun _ _ s =>
  ({ s with player := { s.player with energy_body := true } },
   Except.ok "body transformed into pure ENERGY")

def _effect_ancient_wisdom : Handler := fun _ _ s =>
  ({ s with player := { s.player with ancient_wisdom := true } },
   Except.ok "gained wisdom of the ANCIENTS")

def _effect_leadership : Handler := fun value _ s =>
  ({ s with player := { s.player with leadership := s.player.leadership + value } },
   Except.ok "leadership abilities increased")

def _effect_flight : Handler := fun _ _ s =>
  ({ s with player := { s.player with can_fly := true } },
   Except.ok "gained the power of FLIGHT")

def _effect_detect_lies : Handler := fun _ _ s =>
  ({ s with player := { s.player with detect_lies := true } },
   Except.ok "can now detect all lies and deception")

def _effect_level_bonus : Handler := fun value _ s =>
  let p := s.player
  ({ s with player := { p with level := p.level + value, max_hp := p.max_hp + value * 3 } },
   Except.ok ("gained " ++ toString value ++ " levels instantly"))

def _effect_immunity : Handler := fun value _ s =>
  ({ s with player := { s.player with immunity := max s.player.immunity value } },
   Except.ok ("gained " ++ toString value ++ "% immunity to all damage"))

def _effect_all_stats : Handler :=
  stat_add (fun p v => { p with stat_bonus := p.stat_bonus + v })
    "ALL STATS increased by " ""

def _effect_kick_damage : Handler :=
  stat_add (fun p v => { p with kick_damage := p.kick_damage + v })
    "kick attacks deal +" " damage"

def _effect_punch_damage : Handler :=
  stat_add (fun p v => { p with punch_damage := p.punch_damage + v })
    "punch attacks deal +" " damage"

def _effect_hp_drain : Handler :=
  stat_add (fun p v => { p with hp_drain_per_turn := p.hp_drain_per_turn + v })
    "WARNING: losing " " HP per turn"

/-- Model of `EffectProcessor._initialize_handlers`: the full registry, in source
order (keys are unique). -/
def effect_handlers : List (String × Handler) :=
  [("heal", _effect_heal),
   ("damage", _effect_damage),
   ("armor", _effect_armor),
   ("mana", _effect_mana),
   ("max_hp_bonus", _effect_max_hp_bonus),
   ("damage_buff", _effect_damage_buff),
   ("armor_debuff", _effect_armor_debuff),
   ("dodge", _effect_dodge),
   ("crit_chance", _effect_crit_chance),
   ("block_chance", _effect_block_chance),
   ("life_steal", _effect_life_steal),
   ("pierce", _effect_pierce),
   ("armor_pierce", _effect_armor_pierce),
   ("true_strike", _effect_true_strike),
   ("bleed", _effect_bleed),
   ("burn", _effect_burn),
   ("poison", _effect_poison),
   ("regen", _effect_regen),
   ("stun_chance", _effect_stun_chance),
   ("intimidate", _effect_intimidate),
   ("fire_damage", _effect_fire_damage),
   ("ice_damage", _effect_ice_damage),
   ("earth_damage", _effect_earth_damage),
   ("lightning", _effect_lightning),
   ("lightning_damage", _effect_lightning_damage),
   ("void_damage", _effect_void_damage),
   ("divine_damage", _effect_divine_damage),
   ("magic_damage", _effect_magic_damage),
   ("undead_damage", _effect_undead_damage),
   ("light_damage", _effect_light_damage),
   ("fire_resist", _effect_fire_resist),
   ("cold_resist", _effect_cold_resist),
   ("magic_resist", _effect_magic_resist),
   ("all_resist", _effect_all_resist),
   ("void_protection", _effect_void_protection),
   ("divine_shield", _effect_divine_shield),
   ("stealth", _effect_stealth),
   ("stealth_bonus", _effect_stealth_bonus),
   ("speed_buff", _effect_speed_buff),
   ("escape_chance", _effect_escape_chance),
   ("night_vision", _effect_night_vision),
   ("grip", _effect_grip),
   ("mana_regen", _effect_mana_regen),
   ("spell_power", _effect_spell_power),
   ("energy_absorb", _effect_energy_absorb),
   ("reflect", _effect_reflect),
   ("phase_shift", _effect_phase_shift),
   ("extra_turn", _effect_extra_turn),
   ("heal_on_kill", _effect_heal_on_kill),
   ("summon_ally", _effect_summon_ally),
   ("storm_call", _effect_storm_call),
   ("quantum_strike", _effect_quantum_strike),
   ("cure_poison", _effect_cure_poison),
   ("cure_all", _effect_cure_all),
   ("remove_curse", _effect_remove_curse),
   ("resurrect", _effect_resurrect),
   ("immortality", _effect_immortality),
   ("true_immortality", _effect_true_immortality),
   ("infinite_regen", _effect_infinite_regen),
   ("ascend", _effect_ascend),
   ("divine_power", _effect_divine_power),
   ("cosmic_power", _effect_cosmic_power),
   ("omnipotence", _effect_omnipotence),
   ("reality_control", _effect_reality_control),
   ("time_control", _effect_time_control),
   ("time_mastery", _effect_time_mastery),
   ("star_control", _effect_star_control),
   ("multiverse_control", _effect_multiverse_control),
   ("probability_control", _effect_probability_control),
   ("create_world", _effect_create_world),
   ("create_matter", _effect_create_matter),
   ("dimensional_rift", _effect_dimensional_rift),
   ("infinite_knowledge", _effect_infinite_knowledge),
   ("soul_steal", _effect_soul_steal),
   ("energy_body", _effect_energy_body),
   ("ancient_wisdom", _effect_ancient_wisdom),
   ("leadership", _effect_leadership),
   ("flight", _effect_flight),
   ("detect_lies", _effect_detect_lies),
   ("level_bonus", _effect_level_bonus),
   ("immunity", _effect_immunity),
   ("all_stats", _effect_all_stats),
   ("kick_damage", _effect_kick_damage),
   ("punch_damage", _effect_punch_damage),
   ("hp_drain", _effect_hp_drain)]

/-- Model of `EffectProcessor.apply_effect(effect_type, value, player, enemy,
duration)`: dispatch on the registry; unregistered names return the fixed
unknown-effect narration without touching anything; a raising handler is
caught and rendered as the failure narration (the mutations it made before
raising persist, as in Python). -/
def apply_effect (effect_type : String) (value : Int) (duration : Option Int)
    (s : GState) : GState × String :=
  match effect_handlers.lookup effect_type with
  | none => (s, "Unknown effect: " ++ effect_type)
  | some h =>
      match h value duration s with
      | (s1, Except.ok msg) => (s1, msg)
      | (s1, Except.error e) => (s1, "Effect " ++ effect_type ++ " failed: " ++ e)

/-! ### Concrete model states for the claim scenarios, witnesses and
evaluations -/

/-- A freshly created player with the dataclass defaults of `models.Player`
(`BASE_MAX_HP = 12`, starting inventory `["Potion"]`). -/
def mk_player : PState where
  name := "hero"
  location := "Tavern"
  level := 1
  xp := 0
  xp_to_next := 10
  max_hp := 12
  hp := 12
  gold := 0
  clazz := none
  inventory := ["Potion"]
  has_combat := false
  skill_cd := 0
  step := 0
  is_player := true
  in_combat := false
  cur_enc := false
  legacy_enc := false
  damage_bonus := 0
  armor_bonus := 0
  dodge_bonus := 0
  crit_chance := 0
  block_chance := 0
  mana := 0
  max_mana := 50
  mana_regen := 0
  spell_power := 0
  magic_damage_bonus := 0
  fire_resist := 0
  cold_resist := 0
  magic_resist := 0
  void_protection := 0
  life_steal := 0
  armor_pierce := 0
  pierce := 0
  heal_on_kill := 0
  escape_bonus := 0
  luck_bonus := 0
  regen := 0
  temp_damage_buff := 0
  temp_damage_duration := 0
  temp_armor_debuff := 0
  temp_armor_debuff_duration := 0
  speed_buff := 0
  speed_duration := 0
  statuses := []
  stealth_turns := 0
  immortal_turns := 0
  divine_shield := 0
  extra_turns := 0
  resurrect_charges := 0
  true_immortal := false
  ascended := false
  divine_power := 0
  cosmic_power := false
  omnipotent := false
  reality_control := false
  time_control := false
  time_master := false
  star_control := false
  multiverse_control := false
  infinite_knowledge := false
  infinite_regen := false
  energy_body := false
  ancient_wisdom := false
  can_fly := false
  detect_lies := false
  night_vision := false
  matter_creation := false
  dimensional_power := false
  grip_strength := 0
  kick_damage := 0
  punch_damage := 0
  stun_chance := 0
  reflect_chance := 0
  phase_shift_chance := 0
  stealth_bonus := 0
  energy_absorb := 0
  hp_drain_per_turn := 0
  worlds_created := 0
  stat_bonus := 0
  summoned_ally := none
  void_resist := 0
  immunity := 0
  soul_steal := 0
  leadership := 0
  true_strike := false

/-- A small concrete item catalog extract (the catalog is opaque external
data; only the common-tier list matters for the modelled runs and it is
deliberately non-empty to exhibit the COMMON-roll slip in `generate_drop`). -/
def sample_drops : DropLists where
  common_items := ["Potion", "Stick"]
  uncommon_items := ["Ashen Blade"]
  rare_items := ["Runed Shield"]
  epic_items := ["Storm Halberd"]
  legendary_items := ["Sun Crown"]
  mythic_items := ["World Seed"]

/-- A plain out-of-combat state used by the C7/C8 witnesses. -/
def sample_state : GState where
  player := mk_player
  enemy := none
  enc := none
  rng := ⟨[], []⟩
  drops := sample_drops

/-- A default mob enemy with the `Enemy` dataclass defaults. -/
def mk_enemy : EState where
  name := "Foe"
  hp := 1
  max_hp := 5
  atk := 1
  armor := 0
  type := "mob"
  enraged := false
  special_cd := 0
  traits := []
  statuses := []
  creature_type := "beast"
  affinity := "neutral"
  rarity := "common"
  fire_resist := 0
  cold_resist := 0
  magic_resist := 0
  vulnerabilities := []
  is_enemy := true
  cur_enc := false
  legacy_enc := false
  gold_reward := 0
  xp_reward := 0

/-- Decidable equality for modelled exception results. -/
instance {e a : Type} [DecidableEq e] [DecidableEq a] : DecidableEq (Except e a) := fun x y =>
  match x, y with
  | Except.ok u, Except.ok v =>
      if h : u = v then Decidable.isTrue (by rw [h])
      else Decidable.isFalse (fun hh => h (Except.ok.inj hh))
  | Except.error u, Except.error v =>
      if h : u = v then Decidable.isTrue (by rw [h])
      else Decidable.isFalse (fun hh => h (Except.error.inj hh))
  | Except.ok _, Except.error _ => Decidable.isFalse (fun hh => Except.noConfusion hh)
  | Except.error _, Except.ok _ => Decidable.isFalse (fun hh => Except.noConfusion hh)

/-- The combat enemy of the C1 scenario: 1 HP left, no dodge traits, with
the Encounter back-references attached (as `Encounter.__init__` sets them). -/
def c1_enemy : EState :=
  { mk_enemy with cur_enc := true, legacy_enc := true }

/-- The C1 scenario: a level-1 player with no bonuses mid-combat against
`c1_enemy`, with a live unresolved and unrewarded Encounter attached; the
crit draw is 0.5 (no crit; the dodge draw is never taken since the enemy has
no dodge traits). -/
def c1_state : GState where
  player := { mk_player with
              has_combat := true, in_combat := true,
              cur_enc := true, legacy_enc := true }
  enemy := some c1_enemy
  enc := some ⟨false, false, []⟩
  rng := ⟨[1/2], []⟩
  drops := sample_drops

/-- The C2 scenario: an unrewarded Encounter against a boss; the oracle makes
the guaranteed boss drop roll land in the COMMON band (draw 0.9) — which the
drop system turns into no item — and both multi-drop chances miss
(draws 0.5 ≥ 0.30 and 0.5 ≥ 0.10), so the victory formatter evaluates
`drops[-1]` on an empty list. -/
def c2_state : GState where
  player := { mk_player with
              gold := 5, has_combat := true, in_combat := true,
              cur_enc := true, legacy_enc := true }
  enemy := some { mk_enemy with
                  name := "Dread King", type := "boss",
                  hp := 10, max_hp := 30, cur_enc := true, legacy_enc := true }
  enc := some ⟨false, false, []⟩
  rng := ⟨[9/10, 1/2, 1/2], [0, 0]⟩
  drops := sample_drops

/-- The C3 scenario: the same boss Encounter with the enemy at 1 HP, hit
through the damage pipeline for 5. -/
def c3_state : GState where
  player := { mk_player with
              has_combat := true, in_combat := true,
              cur_enc := true, legacy_enc := true }
  enemy := some { mk_enemy with
                  name := "Dread King", type := "boss",
                  hp := 1, max_hp := 30, cur_enc := true, legacy_enc := true }
  enc := some ⟨false, false, []⟩
  rng := ⟨[9/10, 1/2, 1/2], [0, 0]⟩
  drops := sample_drops

/-- The C9 counterexample scenario: a fresh unrewarded, unresolved mob
Encounter (mob rewards always complete: gold 2, XP 4, no drop on a COMMON
roll). -/
def c9_state : GState where
  player := { mk_player with
              has_combat := true, in_combat := true,
              cur_enc := true, legacy_enc := true }
  enemy := some { mk_enemy with hp := 0, cur_enc := true, legacy_enc := true }
  enc := some ⟨false, false, []⟩
  rng := ⟨[9/10], [0, 0]⟩
  drops := sample_drops

/-- Tests whether the modelled result carries no raised exception. -/
def is_ok {α : Type} : Except String α → Bool
  | Except.ok _ => true
  | Except.error _ => false

/-- The `rewarded ⇒ resolved` invariant on the attached Encounter. -/
def enc_inv (s : GState) : Bool :=
  match s.enc with
  | none => true
  | some e => !e.rewarded || e.resolved

/-- The C9 witness scenario: a live mob fight (enemy at 1 HP) satisfying the
invariant, killed through the damage pipeline. -/
def c9w_state : GState where
  player := { mk_player with
              has_combat := true, in_combat := true,
              cur_enc := true, legacy_enc := true }
  enemy := some { mk_enemy with cur_enc := true, legacy_enc := true }
  enc := some ⟨false, false, []⟩
  rng := ⟨[9/10], [0, 0]⟩
  drops := sample_drops

/-- The C10 scenario: a player deserialized from a saved snapshot whose
combat dict holds an enemy at 0 HP.  Deserialization (`Player.from_json`)
never reconstructs an `Encounter` object — encounters exist only in memory —
so no encounter is attached and both back-reference flags are false. -/
def c10_state : GState where
  player := { mk_player with gold := 5, has_combat := true, in_combat := true }
  enemy := some { mk_enemy with hp := 0 }
  enc := none
  rng := ⟨[], []⟩
  drops := sample_drops

/-! ### Theorems settling the claims -/

theorem clamp7_nonneg (t : DropTable) :
    0 ≤ (clamp7 t).common_chance ∧ 0 ≤ (clamp7 t).uncommon_chance ∧
    0 ≤ (clamp7 t).rare_chance ∧ 0 ≤ (clamp7 t).epic_chance ∧
    0 ≤ (clamp7 t).legendary_chance ∧ 0 ≤ (clamp7 t).mythic_chance ∧
    0 ≤ (clamp7 t).no_drop_chance := by
  refine ⟨?_, ?_, ?_, ?_, ?_, ?_, ?_⟩ <;> exact le_max_left 0 _

theorem clamp7_id (t : DropTable)
    (h : 0 ≤ t.common_chance ∧ 0 ≤ t.uncommon_chance ∧ 0 ≤ t.rare_chance ∧
         0 ≤ t.epic_chance ∧ 0 ≤ t.legendary_chance ∧ 0 ≤ t.mythic_chance ∧
         0 ≤ t.no_drop_chance) :
    clamp7 t = t := by
  obtain ⟨c, u, r, e, l, m, n⟩ := t
  obtain ⟨h1, h2, h3, h4, h5, h6, h7⟩ := h
  simp only [clamp7, DropTable.mk.injEq]
  exact ⟨max_eq_right h1, max_eq_right h2, max_eq_right h3, max_eq_right h4,
         max_eq_right h5, max_eq_right h6, max_eq_right h7⟩

theorem sum7_normalize (t : DropTable) : sum7 (_normalize_probs t) = 1 := by
  simp only [_normalize_probs]
  split
  · norm_num [sum7]
  · rename_i hs
    have hpos : 0 < sum7 (clamp7 t) := by
      have h1 : (0 : ℚ) < EPS := by norm_num [EPS]
      have h2 := lt_of_not_le hs
      linarith
    have hne : sum7 (clamp7 t) ≠ 0 := ne_of_gt hpos
    simp only [sum7] at hne ⊢
    field_simp

theorem normalize_nonneg (t : DropTable) :
    0 ≤ (_normalize_probs t).common_chance ∧ 0 ≤ (_normalize_probs t).uncommon_chance ∧
    0 ≤ (_normalize_probs t).rare_chance ∧ 0 ≤ (_normalize_probs t).epic_chance ∧
    0 ≤ (_normalize_probs t).legendary_chance ∧ 0 ≤ (_normalize_probs t).mythic_chance ∧
    0 ≤ (_normalize_probs t).no_drop_chance := by
  simp only [_normalize_probs]
  split
  · norm_num
  · rename_i hs
    have hpos : 0 < sum7 (clamp7 t) := by
      have h1 : (0 : ℚ) < EPS := by norm_num [EPS]
      have h2 := lt_of_not_le hs
      linarith
    obtain ⟨h1, h2, h3, h4, h5, h6, h7⟩ := clamp7_nonneg t
    exact ⟨div_nonneg h1 hpos.le, div_nonneg h2 hpos.le, div_nonneg h3 hpos.le,
           div_nonneg h4 hpos.le, div_nonneg h5 hpos.le, div_nonneg h6 hpos.le,
           div_nonneg h7 hpos.le⟩

/-- Claim C4: for every DropTable constructed from chance values (in
particular all non-negative finite ones — the statement quantifies over all
rational inputs), construction succeeds and the seven stored probabilities
sum to 1.0 within 1e-6: `__post_init__` either accepts the clamped values
(already within tolerance) or renormalizes them to an exact sum of 1, and its
failure branch is unreachable. -/
theorem c4_post_init_sum_within_tolerance :
    ∀ (c u r e l m n : ℚ), ∃ t : DropTable,
      post_init ⟨c, u, r, e, l, m, n⟩ = Except.ok t ∧ |sum7 t - 1| ≤ 1/1000000 := by
  intro c u r e l m n
  simp only [post_init]
  split
  · split
    · rename_i h2
      rw [sum7_normalize] at h2
      norm_num at h2
    · exact ⟨_, rfl, by rw [sum7_normalize]; norm_num⟩
  · rename_i h
    exact ⟨_, rfl, le_of_not_lt h⟩

theorem post_init_id (t : DropTable)
    (h0 : 0 ≤ t.common_chance ∧ 0 ≤ t.uncommon_chance ∧ 0 ≤ t.rare_chance ∧
          0 ≤ t.epic_chance ∧ 0 ≤ t.legendary_chance ∧ 0 ≤ t.mythic_chance ∧
          0 ≤ t.no_drop_chance)
    (h1 : sum7 t = 1) : post_init t = Except.ok t := by
  simp only [post_init]
  rw [clamp7_id t h0, h1]
  norm_num

theorem mk_drop_table_eta (q : DropTable)
    (h0 : 0 ≤ q.common_chance ∧ 0 ≤ q.uncommon_chance ∧ 0 ≤ q.rare_chance ∧
          0 ≤ q.epic_chance ∧ 0 ≤ q.legendary_chance ∧ 0 ≤ q.mythic_chance ∧
          0 ≤ q.no_drop_chance)
    (h1 : sum7 q = 1) :
    mk_drop_table q.common_chance q.uncommon_chance q.rare_chance q.epic_chance
      q.legendary_chance q.mythic_chance q.no_drop_chance = q := by
  unfold mk_drop_table
  have he : (⟨q.common_chance, q.uncommon_chance, q.rare_chance, q.epic_chance,
             q.legendary_chance, q.mythic_chance, q.no_drop_chance⟩ : DropTable) = q := rfl
  rw [he, post_init_id q h0 h1]
  rfl

theorem normalize_le_of_one_le (t : DropTable)
    (h0 : 0 ≤ t.common_chance ∧ 0 ≤ t.uncommon_chance ∧ 0 ≤ t.rare_chance ∧
          0 ≤ t.epic_chance ∧ 0 ≤ t.legendary_chance ∧ 0 ≤ t.mythic_chance ∧
          0 ≤ t.no_drop_chance)
    (h1 : 1 ≤ sum7 t) :
    (_normalize_probs t).common_chance ≤ t.common_chance ∧
    (_normalize_probs t).uncommon_chance ≤ t.uncommon_chance ∧
    (_normalize_probs t).rare_chance ≤ t.rare_chance ∧
    (_normalize_probs t).epic_chance ≤ t.epic_chance ∧
    (_normalize_probs t).legendary_chance ≤ t.legendary_chance ∧
    (_normalize_probs t).mythic_chance ≤ t.mythic_chance ∧
    (_normalize_probs t).no_drop_chance ≤ t.no_drop_chance := by
  simp only [_normalize_probs, clamp7_id t h0]
  split
  · rename_i hs
    exfalso
    have : EPS < 1 := by norm_num [EPS]
    linarith
  · exact ⟨div_le_self h0.1 h1, div_le_self h0.2.1 h1, div_le_self h0.2.2.1 h1,
           div_le_self h0.2.2.2.1 h1, div_le_self h0.2.2.2.2.1 h1,
           div_le_self h0.2.2.2.2.2.1 h1, div_le_self h0.2.2.2.2.2.2 h1⟩

theorem one_le_sum7_scale_raw (b : DropTable) (n : Int) (hsum : sum7 b = 1) :
    1 ≤ sum7 (scale_raw b n) := by
  have h : b.common_chance - actual_increase b n ≤ new_common b n :=
    le_max_right _ _
  simp only [actual_increase] at h
  simp only [sum7] at hsum
  simp only [sum7, scale_raw]
  linarith

theorem scale_raw_nonneg (b : DropTable) (n : Int)
    (h0 : 0 ≤ b.common_chance ∧ 0 ≤ b.uncommon_chance ∧ 0 ≤ b.rare_chance ∧
          0 ≤ b.epic_chance ∧ 0 ≤ b.legendary_chance ∧ 0 ≤ b.mythic_chance ∧
          0 ≤ b.no_drop_chance)
    (hn : (0 : ℚ) ≤ (n : ℚ)) :
    0 ≤ (scale_raw b n).common_chance ∧ 0 ≤ (scale_raw b n).uncommon_chance ∧
    0 ≤ (scale_raw b n).rare_chance ∧ 0 ≤ (scale_raw b n).epic_chance ∧
    0 ≤ (scale_raw b n).legendary_chance ∧ 0 ≤ (scale_raw b n).mythic_chance ∧
    0 ≤ (scale_raw b n).no_drop_chance := by
  obtain ⟨h1, h2, h3, h4, h5, h6, h7⟩ := h0
  refine ⟨?_, ?_, ?_, ?_, ?_, ?_, h7⟩
  · have : (0.05 : ℚ) ≤ new_common b n := le_max_left _ _
    have h05 : (0 : ℚ) ≤ 0.05 := by norm_num
    exact le_trans h05 this
  · exact add_nonneg h2 (mul_nonneg hn (by norm_num [scaling]))
  · exact le_min (by norm_num) (add_nonneg h3 (mul_nonneg hn (by norm_num [scaling])))
  · exact le_min (by norm_num) (add_nonneg h4 (mul_nonneg hn (by norm_num [scaling])))
  · exact le_min (by norm_num) (add_nonneg h5 (mul_nonneg hn (by norm_num [scaling])))
  · exact le_min (by norm_num) (add_nonneg h6 (mul_nonneg hn (by norm_num [scaling])))

theorem scaled_caps (b : DropTable)
    (h0 : 0 ≤ b.common_chance ∧ 0 ≤ b.uncommon_chance ∧ 0 ≤ b.rare_chance ∧
          0 ≤ b.epic_chance ∧ 0 ≤ b.legendary_chance ∧ 0 ≤ b.mythic_chance ∧
          0 ≤ b.no_drop_chance)
    (hsum : sum7 b = 1)
    (hr : b.rare_chance ≤ 0.80) (he : b.epic_chance ≤ 0.40)
    (hl : b.legendary_chance ≤ 0.20) (hm : b.mythic_chance ≤ 0.05)
    (lvl : Int) :
    (calculate_scaled_chances b lvl).rare_chance ≤ 0.80 ∧
    (calculate_scaled_chances b lvl).epic_chance ≤ 0.40 ∧
    (calculate_scaled_chances b lvl).legendary_chance ≤ 0.20 ∧
    (calculate_scaled_chances b lvl).mythic_chance ≤ 0.05 := by
  simp only [calculate_scaled_chances]
  split
  · exact ⟨hr, he, hl, hm⟩
  · rename_i hn
    generalize hNdef : min (max 0 (lvl - scaling.base_level)) scaling.max_level_bonus = N at hn ⊢
    have hNq : (0 : ℚ) ≤ (N : ℚ) := by
      have : (0 : Int) < N := lt_of_not_le hn
      exact_mod_cast this.le
    have raw0 := scale_raw_nonneg b N h0 hNq
    have raw1 := one_le_sum7_scale_raw b N hsum
    have hle := normalize_le_of_one_le (scale_raw b N) raw0 raw1
    have q0 := normalize_nonneg (scale_raw b N)
    have q1 := sum7_normalize (scale_raw b N)
    rw [mk_drop_table_eta (_normalize_probs (scale_raw b N)) q0 q1]
    refine ⟨?_, ?_, ?_, ?_⟩
    · exact le_trans hle.2.2.1 (min_le_left _ _)
    · exact le_trans hle.2.2.2.1 (min_le_left _ _)
    · exact le_trans hle.2.2.2.2.1 (min_le_left _ _)
    · exact le_trans hle.2.2.2.2.2.1 (min_le_left _ _)

/-- Claim C5: for every base drop table in the system (all nine sources) and
every player level, including levels beyond the level-30 scaling ceiling, the
table returned by `calculate_scaled_chances` keeps rare ≤ 0.80, epic ≤ 0.40,
legendary ≤ 0.20 and mythic ≤ 0.05, including after the final
renormalization: the pre-normalization sum is at least 1 (the common floor
can only add mass), so normalization never increases any entry. -/
theorem c5_scaled_chances_respect_caps :
    ∀ (src : DropSource) (player_level : Int),
      (calculate_scaled_chances (drop_tables src) player_level).rare_chance ≤ 0.80 ∧
      (calculate_scaled_chances (drop_tables src) player_level).epic_chance ≤ 0.40 ∧
      (calculate_scaled_chances (drop_tables src) player_level).legendary_chance ≤ 0.20 ∧
      (calculate_scaled_chances (drop_tables src) player_level).mythic_chance ≤ 0.05 := by
  intro src lvl
  cases src <;>
    exact scaled_caps _ (by decide) (by decide) (by decide) (by decide)
      (by decide) (by decide) lvl

/-- Claim C6: `roll_rarity` accumulates the tier probabilities in the fixed
order mythic, legendary, epic, rare, uncommon, common and returns the first
tier whose cumulative sum strictly exceeds the uniform draw, returning none
when the draw is beyond the six-tier cumulative sum; on the CHEST_COMMON
table `{common: 0.70, uncommon: 0.15, rare: 0.14, epic: 0.01, legendary: 0,
mythic: 0, no_drop: 0}` (at player level 1, where scaling is a no-op) a draw
of 0.005 yields epic and a draw of 0.99 yields common. -/
theorem c6_roll_rarity_order_and_boundaries :
    (∀ (t : DropTable) (roll : ℚ),
      roll_rarity t roll =
        if roll < t.mythic_chance then some ItemRarity.mythic
        else if roll < t.mythic_chance + t.legendary_chance then some ItemRarity.legendary
        else if roll < t.mythic_chance + t.legendary_chance + t.epic_chance then
          some ItemRarity.epic
        else if roll < t.mythic_chance + t.legendary_chance + t.epic_chance +
            t.rare_chance then some ItemRarity.rare
        else if roll < t.mythic_chance + t.legendary_chance + t.epic_chance +
            t.rare_chance + t.uncommon_chance then some ItemRarity.uncommon
        else if roll < t.mythic_chance + t.legendary_chance + t.epic_chance +
            t.rare_chance + t.uncommon_chance + t.common_chance then
          some ItemRarity.common
        else none) ∧
    (roll_rarity_from .chest_common 1 ⟨[0.005], []⟩).1 = some ItemRarity.epic ∧
    (roll_rarity_from .chest_common 1 ⟨[0.99], []⟩).1 = some ItemRarity.common := by
  refine ⟨?_, by decide, by decide⟩
  intro t roll
  simp only [roll_rarity, roll_loop, zero_add]

/-- Claim C7: for every effect name not present in the handler registry,
`apply_effect` returns exactly the string `"Unknown effect: <name>"`, does
not raise, and leaves the state (player and enemy) completely unchanged. -/
theorem c7_apply_effect_unknown_name :
    ∀ (name : String) (value : Int) (duration : Option Int) (s : GState),
      effect_handlers.lookup name = none →
      apply_effect name value duration s = (s, "Unknown effect: " ++ name) := by
  intro name value duration s h
  simp only [apply_effect, h]

/-- Claim C8: `apply_effect` never propagates a raise from a registered
handler: whenever the looked-up handler raises on its input, `apply_effect`
returns the string `"Effect <name> failed: <reason>"` (with whatever
mutations preceded the raise), so the caller's combat round can complete. -/
theorem c8_apply_effect_catches_handler_failure :
    ∀ (name : String) (h : Handler) (value : Int) (duration : Option Int)
      (s s1 : GState) (reason : String),
      effect_handlers.lookup name = some h →
      h value duration s = (s1, Except.error reason) →
      apply_effect name value duration s = (s1, "Effect " ++ name ++ " failed: " ++ reason) := by
  intro name h value duration s s1 reason hl he
  simp only [apply_effect, hl, he]

/-- Witness for C7 at the spec's concrete scenario
`apply_effect("not_a_real_effect", 5, player, none, none)`. -/
theorem c7_apply_effect_unknown_name_witness :
    apply_effect "not_a_real_effect" 5 none sample_state =
      (sample_state, "Unknown effect: not_a_real_effect") :=
  c7_apply_effect_unknown_name "not_a_real_effect" 5 none sample_state (by rfl)

/-- Witness for C8: the registered `true_strike` handler raises on every
input (its source declaration takes a single `ctx` argument), and
`apply_effect` renders that raise as the failure narration. -/
theorem c8_apply_effect_catches_handler_failure_witness :
    apply_effect "true_strike" 5 none sample_state =
      (sample_state,
       "Effect true_strike failed: EffectProcessor._effect_true_strike() takes 2 positional arguments but 5 were given") :=
  c8_apply_effect_catches_handler_failure "true_strike" _effect_true_strike 5 none
    sample_state sample_state
    "EffectProcessor._effect_true_strike() takes 2 positional arguments but 5 were given"
    (by rfl) (by rfl)

/-- Claim C1 (code evaluated at the failing input): a lethal `basic_hit`
writes the enemy's health to 0 directly but performs no death resolution —
the attached unresolved Encounter is left with `rewarded = false` and
`resolved = false`, no reward is granted (gold, XP, inventory unchanged) and
`end()` is never called, contradicting the claim that exactly one
`reward_player_once` and one `end()` occur whenever health reaches 0 with an
unresolved Encounter attached. -/
theorem c1_basic_hit_skips_death_resolution :
    ((basic_hit c1_state).1.enemy = some { c1_enemy with hp := 0 }) ∧
    ((basic_hit c1_state).1.enc = some ⟨false, false, []⟩) ∧
    ((basic_hit c1_state).1.player = c1_state.player) ∧
    ((basic_hit c1_state).2 = "You hit for 1.") := by
  decide

/-- Claim C2 (code evaluated at the failing input): the first
`reward_player_once` on an unrewarded boss Encounter raises `IndexError`
out of the victory formatter after granting the gold (5 + 8 = 13) but before
the XP grant, the item grant and `end()` — so the pair of calls changes gold
once but XP and inventory zero times, and the encounter is left rewarded but
unresolved.  The second call still returns the empty string and changes
nothing. -/
theorem c2_boss_reward_first_call_raises :
    ((reward_player_once "damage" c2_state).2 =
      Except.error "list index out of range") ∧
    ((reward_player_once "damage" c2_state).1.player.gold = 13) ∧
    ((reward_player_once "damage" c2_state).1.player.xp = 0) ∧
    ((reward_player_once "damage" c2_state).1.player.level = 1) ∧
    ((reward_player_once "damage" c2_state).1.player.inventory = ["Potion"]) ∧
    ((reward_player_once "damage" c2_state).1.enc = some ⟨false, true, []⟩) ∧
    (reward_player_once "damage" (reward_player_once "damage" c2_state).1 =
      ((reward_player_once "damage" c2_state).1, Except.ok "")) := by
  decide

/-- Claim C3 (code evaluated at the failing input): a lethal
`apply_damage` on a boss whose victory reward rolls zero items raises
`IndexError` instead of returning the dealt amount — the health clamp is
applied (health goes 1 → 0) but the function has no return value, and the
encounter is left unresolved. -/
theorem c3_apply_damage_lethal_boss_raises :
    ((apply_damage Tgt.enemy 5 "attack" c3_state).2 =
      Except.error "list index out of range") ∧
    ((apply_damage Tgt.enemy 5 "attack" c3_state).1.enemy.map EState.hp = some 0) ∧
    ((apply_damage Tgt.enemy 5 "attack" c3_state).1.enc.map Enc.resolved = some false) := by
  decide

/-- Counterexample to claim C9 as stated: after the public operation
`reward_player_once` returns (normally), the Encounter is observably in the
state `rewarded = true ∧ resolved = false`, so `rewarded ⇒ resolved` does
not hold after every public operation. -/
theorem c9_reward_without_end_counterexample :
    ((reward_player_once "damage" c9_state).1.enc.map Enc.rewarded = some true) ∧
    ((reward_player_once "damage" c9_state).1.enc.map Enc.resolved = some false) ∧
    ((reward_player_once "damage" c9_state).2 = Except.ok "Foe defeated! +2g, +4 XP.") := by
  decide

theorem enc_inv_end_enc (s : GState) : enc_inv (end_enc s) = true := by
  cases h : s.enc with
  | none => simp [end_enc, enc_inv, h]
  | some e => simp [end_enc, enc_inv, h]

theorem end_enc_enc (s : GState) :
    (end_enc s).enc = s.enc.map (fun e => { e with resolved := true }) := by
  cases h : s.enc with
  | none => simp [end_enc, h]
  | some e => simp [end_enc, h]

theorem try_resolve_enemy_preserves (source : String) (s : GState)
    (hinv : enc_inv s = true) :
    is_ok (_try_resolve_death .enemy source s).2 = true →
    enc_inv (_try_resolve_death .enemy source s).1 = true := by
  unfold _try_resolve_death
  cases h : s.enemy with
  | none => intro _; exact hinv
  | some en =>
      simp only
      split
      · split
        · split
          · split
            · rename_i heq
              intro hok
              simp [is_ok] at hok
            · rename_i s1 u heq
              intro _
              exact enc_inv_end_enc s1
          · intro _; exact hinv
        · intro _; exact hinv
      · intro _; exact hinv

/-- Amended claim C9: the implication `rewarded ⇒ resolved` holds after
`end()` returns (it sets `resolved := true`), and the damage pipeline
preserves it whenever `apply_damage` returns normally — because every kill
site rewards and then immediately ends.  After `reward_player_once` alone
returns (and when a boss-reward raise aborts the follow-up `end()`),
`rewarded` may be true while `resolved` is still false. -/
theorem c9_rewarded_implies_resolved_after_end :
    ∀ (s : GState),
      (∀ e : Enc, (end_enc s).enc = some e → e.resolved = true) ∧
      (enc_inv s = true → ∀ (amount : Int) (source : String),
        is_ok (apply_damage .enemy amount source s).2 = true →
        enc_inv (apply_damage .enemy amount source s).1 = true) := by
  intro s
  constructor
  · intro e he
    rw [end_enc_enc] at he
    cases h : s.enc with
    | none => rw [h] at he; simp at he
    | some e0 =>
        rw [h] at he
        simp only [Option.map_some', Option.some.injEq] at he
        rw [← he]
  · intro hinv amount source
    simp only [apply_damage]
    split
    · intro _; exact hinv
    · split
      · intro _; exact hinv
      · rename_i en heq
        split
        · rename_i s2 err heq2
          intro hok
          simp [is_ok] at hok
        · rename_i s2 u heq2
          intro _
          set s1 : GState := { s with enemy := some { en with hp := max 0 (en.hp - amount) } } with hs1
          have hinv1 : enc_inv s1 = true := hinv
          have h3 := try_resolve_enemy_preserves source s1 hinv1 (by rw [heq2]; rfl)
          rw [heq2] at h3
          exact h3

/-- Witness for the amended C9 at a concrete lethal mob kill. -/
theorem c9_rewarded_implies_resolved_after_end_witness :
    enc_inv (apply_damage Tgt.enemy 5 "hit" c9w_state).1 = true :=
  (c9_rewarded_implies_resolved_after_end c9w_state).2 (by decide) 5 "hit" (by decide)

/-- Claim C10 (code evaluated at the failing input): the startup maintenance
pass takes the no-Encounter legacy fallback on every loaded player — it
clears the combat flags and returns the spoils line, but grants no gold, no
XP and no items, leaving the player unpaid (though not double-paid). -/
theorem c10_autoresolve_on_load_grants_nothing :
    ((autoresolve_dead_foes_on_load c10_state).1.player.gold = 5) ∧
    ((autoresolve_dead_foes_on_load c10_state).1.player.xp = 0) ∧
    ((autoresolve_dead_foes_on_load c10_state).1.player.level = 1) ∧
    ((autoresolve_dead_foes_on_load c10_state).1.player.inventory = ["Potion"]) ∧
    ((autoresolve_dead_foes_on_load c10_state).1.player.has_combat = false) ∧
    ((autoresolve_dead_foes_on_load c10_state).1.player.in_combat = false) ∧
    ((autoresolve_dead_foes_on_load c10_state).2 =
      Except.ok (some "Foe down — you claim your spoils!")) := by
  decide

end Ashbee
